import Mathlib

/-!
Verification of `src/util/calculateImpact.ts` from pekkapulli/redime-prototypes.

The module is a pure arithmetic model: it estimates energy consumption (joules,
converted to watt-hours) and carbon emissions for loading and using a web page,
broken down into server, network, data-transfer (radio access) and device
components. We embed the TypeScript numbers as rationals (`ℚ`): every constant
in the source is a decimal or integer literal, so the embedding is exact and
the floating-point identities claimed "up to tolerance" become exact equalities.

Definitions mirror the source file function by function. The enumerations
`DeviceType`, `ContentType`, `ConnectivityMethod`, `Site`, the result records
`EnergyAndCarbon` / `ComparisonValues` / `Calculation`, the list
`allConnectivityMethods` and the scaler `multiplyCalculation` live in
`src/types.ts` and `src/util/calculationUtils.ts`, which are not part of the
sources; they are modelled from the spec where noted.
-/

namespace CalculateImpact

/-- Modelled from the spec: `DeviceType` enumeration {Phone, Tablet, PC, Laptop}
(`src/types.ts` is not in the sources). -/
inductive DeviceType where
  | Phone
  | Tablet
  | PC
  | Laptop
deriving DecidableEq, Repr

/-- Modelled from the spec: `ContentType` enumeration {Text, Video, Audio}
(`src/types.ts` is not in the sources). -/
inductive ContentType where
  | Text
  | Video
  | Audio
deriving DecidableEq, Repr

/-- Modelled from the spec: `ConnectivityMethod` enumeration {3G, 4G, 5G, WIFI}
(`src/types.ts` is not in the sources). -/
inductive ConnectivityMethod where
  | ThreeG
  | FourG
  | FiveG
  | WIFI
deriving DecidableEq, Repr

/-- Modelled from the spec: `Site` is an enumeration of content sources: named
publishers (the source matches "Areena", "Yle", "HS") plus a generic default
(`src/types.ts` is not in the sources; `Other` stands for any site that is not
one of the named publishers). -/
inductive Site where
  | Yle
  | Areena
  | HS
  | Other
deriving DecidableEq, Repr

/-- Modelled from the spec: `allConnectivityMethods` lists every connectivity
method (`src/types.ts` is not in the sources). -/
@[simp] def allConnectivityMethods : List ConnectivityMethod :=
  [ConnectivityMethod.ThreeG, ConnectivityMethod.FourG,
   ConnectivityMethod.FiveG, ConnectivityMethod.WIFI]

/-- `EnergyAndCarbon` value object. -/
structure EnergyAndCarbon where
  totalEnergyConsumptionWh : ℚ
  carbonGrams : ℚ
deriving DecidableEq, Repr

/-- `ComparisonValues` value object. -/
structure ComparisonValues where
  drivingKMPetrolCar : ℚ
  lightBulbDurationSeconds : ℚ
deriving DecidableEq, Repr

/-- `Calculation` aggregate result. -/
structure Calculation where
  total : EnergyAndCarbon
  comparisonValues : ComparisonValues
  serverEnergyConsumption : EnergyAndCarbon
  networkEnergyConsumption : EnergyAndCarbon
  dataTransferEnergyConsumption : EnergyAndCarbon
  energyOfUse : EnergyAndCarbon
deriving DecidableEq, Repr

/-- Modelled from the spec: `multiplyCalculation` from
`src/util/calculationUtils.ts` (not in the sources) returns a new `Calculation`
with every numeric field multiplied by the multiplier, structure-preserving,
no rounding. -/
@[simp] def multiplyCalculation (c : Calculation) (multiplier : ℚ) : Calculation :=
  { total := ⟨multiplier * c.total.totalEnergyConsumptionWh,
              multiplier * c.total.carbonGrams⟩
    comparisonValues := ⟨multiplier * c.comparisonValues.drivingKMPetrolCar,
                         multiplier * c.comparisonValues.lightBulbDurationSeconds⟩
    serverEnergyConsumption :=
      ⟨multiplier * c.serverEnergyConsumption.totalEnergyConsumptionWh,
       multiplier * c.serverEnergyConsumption.carbonGrams⟩
    networkEnergyConsumption :=
      ⟨multiplier * c.networkEnergyConsumption.totalEnergyConsumptionWh,
       multiplier * c.networkEnergyConsumption.carbonGrams⟩
    dataTransferEnergyConsumption :=
      ⟨multiplier * c.dataTransferEnergyConsumption.totalEnergyConsumptionWh,
       multiplier * c.dataTransferEnergyConsumption.carbonGrams⟩
    energyOfUse := ⟨multiplier * c.energyOfUse.totalEnergyConsumptionWh,
                    multiplier * c.energyOfUse.carbonGrams⟩ }

/-- `DEVICE_POWER` table: Phone 1, Tablet 3, PC 115, Laptop 32 (watts). -/
@[simp] def DEVICE_POWER : DeviceType → ℚ
  | DeviceType.Phone => 1
  | DeviceType.Tablet => 3
  | DeviceType.PC => 115
  | DeviceType.Laptop => 32

/-- `DATA_VOLUME_TEXT = 8000000` bytes. -/
@[simp] def DATA_VOLUME_TEXT : ℚ := 8000000

/-- `DATA_VOLUME_VIDEO_PER_S_DEFAULT = 4000000 / 8` bytes per second. -/
@[simp] def DATA_VOLUME_VIDEO_PER_S_DEFAULT : ℚ := 4000000 / 8

/-- `DATA_VOLUME_VIDEO_PER_S_SANOMA = 5312785 / 8` bytes per second. -/
@[simp] def DATA_VOLUME_VIDEO_PER_S_SANOMA : ℚ := 5312785 / 8

/-- `DATA_VOLUME_VIDEO_PER_S_YLE = 3670450 / 8` bytes per second. -/
@[simp] def DATA_VOLUME_VIDEO_PER_S_YLE : ℚ := 3670450 / 8

/-- `DATA_VOLUME_AUDIO_PER_S = 128000 / 8` bytes per second. -/
@[simp] def DATA_VOLUME_AUDIO_PER_S : ℚ := 128000 / 8

/-- `DATA_VOLUME_VIDEO_OPTIMIZED_PER_S = 1100000 / 8` bytes per second. -/
@[simp] def DATA_VOLUME_VIDEO_OPTIMIZED_PER_S : ℚ := 1100000 / 8

/-- `E_ORIGIN_PER_REQUEST = 306` joules. -/
@[simp] def E_ORIGIN_PER_REQUEST : ℚ := 306

/-- `E_NETWORK_COEFF = 0.000045` joules per byte. -/
@[simp] def E_NETWORK_COEFF : ℚ := 45 / 1000000

/-- `WIFI_ENERGY_PER_S = 10` joules per second. -/
@[simp] def WIFI_ENERGY_PER_S : ℚ := 10

/-- `E_ACC_NET_3G = 4.55e-5` joules per byte. -/
@[simp] def E_ACC_NET_3G : ℚ := 455 / 10000000

/-- `E_ACC_NET_4G = (0.117 * 3.6e6) / 1e9` (kWh/GB converted to J/byte). -/
@[simp] def E_ACC_NET_4G : ℚ := (117 / 1000 * 3600000) / 1000000000

/-- `E_ACC_NET_5G = (0.501 * 3.6e6) / 1e9` (kWh/GB converted to J/byte). -/
@[simp] def E_ACC_NET_5G : ℚ := (501 / 1000 * 3600000) / 1000000000

/-- `CARBON_COEFF = 0.11` grams per watt-hour. -/
@[simp] def CARBON_COEFF : ℚ := 11 / 100

/-- `POWER_LIGHTBULB = 40` watts. -/
@[simp] def POWER_LIGHTBULB : ℚ := 40

/-- `CAR_EMISSIONS = 0.20864` kilograms per kilometer. -/
@[simp] def CAR_EMISSIONS : ℚ := 20864 / 100000

/-- `getEnergyAndCarbon`: joules to watt-hours (`/ 3600`) and carbon grams
(`CARBON_COEFF *` watt-hours). -/
@[simp] def getEnergyAndCarbon (energyInJoules : ℚ) : EnergyAndCarbon :=
  { totalEnergyConsumptionWh := energyInJoules / 3600
    carbonGrams := CARBON_COEFF * (energyInJoules / 3600) }

/-- `getDeviceEnergyConsumption(deviceType, contentType?)`: the device's base
power draw, times 1.15 when the (optional) content type is Video. -/
@[simp] def getDeviceEnergyConsumption (deviceType : DeviceType)
    (contentType : Option ContentType) : ℚ :=
  if contentType = some ContentType.Video then
    DEVICE_POWER deviceType * (115 / 100)
  else
    DEVICE_POWER deviceType

/-- `getDataVolume(contentType, durationSecs, optimizeVideo, site)`. -/
@[simp] def getDataVolume (contentType : ContentType) (durationSecs : ℚ)
    (optimizeVideo : Bool) (site : Site) : ℚ :=
  match contentType with
  | ContentType.Audio => durationSecs * DATA_VOLUME_AUDIO_PER_S
  | ContentType.Video =>
      let bitRate :=
        match site with
        | Site.Areena => DATA_VOLUME_VIDEO_PER_S_YLE
        | Site.Yle => DATA_VOLUME_VIDEO_PER_S_YLE
        | Site.HS => DATA_VOLUME_VIDEO_PER_S_SANOMA
        | Site.Other => DATA_VOLUME_VIDEO_PER_S_DEFAULT
      durationSecs * (if optimizeVideo then DATA_VOLUME_VIDEO_OPTIMIZED_PER_S else bitRate)
  | ContentType.Text => DATA_VOLUME_TEXT

/-- `getDataTransferEnergyConsumption(connectivityMethod, dataVolume,
pageLoads, durationSecs)`: per-byte coefficient times volume times page loads
for 3G/4G/5G, flat per-second rate for Wi-Fi. -/
@[simp] def getDataTransferEnergyConsumption (connectivityMethod : ConnectivityMethod)
    (dataVolume pageLoads durationSecs : ℚ) : ℚ :=
  match connectivityMethod with
  | ConnectivityMethod.ThreeG => E_ACC_NET_3G * dataVolume * pageLoads
  | ConnectivityMethod.FourG => E_ACC_NET_4G * dataVolume * pageLoads
  | ConnectivityMethod.FiveG => E_ACC_NET_5G * dataVolume * pageLoads
  | ConnectivityMethod.WIFI => WIFI_ENERGY_PER_S * durationSecs

/-- Device classes of `DATA_SHARE_MAP`. -/
inductive DeviceClass where
  | mobile
  | computer
deriving DecidableEq, Repr

/-- `DATA_SHARE_MAP`: traffic shares per device class and connectivity
method. -/
@[simp] def DATA_SHARE_MAP : DeviceClass → ConnectivityMethod → ℚ
  | DeviceClass.mobile, ConnectivityMethod.FourG => 4 / 10
  | DeviceClass.mobile, ConnectivityMethod.FiveG => 3 / 10
  | DeviceClass.mobile, ConnectivityMethod.ThreeG => 0
  | DeviceClass.mobile, ConnectivityMethod.WIFI => 3 / 10
  | DeviceClass.computer, ConnectivityMethod.FourG => 3 / 10
  | DeviceClass.computer, ConnectivityMethod.FiveG => 1 / 10
  | DeviceClass.computer, ConnectivityMethod.ThreeG => 0
  | DeviceClass.computer, ConnectivityMethod.WIFI => 6 / 10

/-- `formulateDataTransferEnergyConsumptionSum(deviceType, dataVolume,
pageLoads, durationInSeconds)`: classify the device (`Phone` is mobile,
anything else computer) and sum the per-method energies weighted by the share
table. -/
@[simp] def formulateDataTransferEnergyConsumptionSum (deviceType : DeviceType)
    (dataVolume pageLoads durationInSeconds : ℚ) : ℚ :=
  let device := if deviceType = DeviceType.Phone then DeviceClass.mobile
                else DeviceClass.computer
  allConnectivityMethods.foldl
    (fun result method =>
      result +
        getDataTransferEnergyConsumption method dataVolume pageLoads
            durationInSeconds *
          DATA_SHARE_MAP device method)
    0

/-- `calculateComparisonValues(carbonGrams, eTotalJoule)`. -/
@[simp] def calculateComparisonValues (carbonGrams eTotalJoule : ℚ) : ComparisonValues :=
  { drivingKMPetrolCar := carbonGrams / 1000 / CAR_EMISSIONS
    lightBulbDurationSeconds := eTotalJoule / POWER_LIGHTBULB }

/-- `calculateServerEnergyConsumption(dataVolume, pageLoads?)`, with the
`pageLoads ?? 1` default. -/
@[simp] def calculateServerEnergyConsumption (dataVolume : ℚ) (pageLoads : Option ℚ) : ℚ :=
  (E_ORIGIN_PER_REQUEST + 69 / 10000000 * dataVolume) * pageLoads.getD 1

/-- `calculateNetworkEnergyConsumption(dataVolume, pageLoads?)`, with the
`pageLoads ?? 1` default. -/
@[simp] def calculateNetworkEnergyConsumption (dataVolume : ℚ) (pageLoads : Option ℚ) : ℚ :=
  E_NETWORK_COEFF * dataVolume * pageLoads.getD 1

/-- `PageLoadParams`. -/
structure PageLoadParams where
  deviceType : DeviceType
  dataVolume : ℚ
  userAmount : ℚ
  site : Site
deriving DecidableEq, Repr

/-- `PageUseParams`. -/
structure PageUseParams where
  deviceType : DeviceType
  contentType : ContentType
  durationInSeconds : ℚ
  optimizeVideo : Bool
  userAmount : ℚ
  site : Site
deriving DecidableEq, Repr

/-- The `durationInSeconds = 5` local of `calculatePageLoadImpact` ("an
unbased assumption about page load time"). -/
@[simp] def pageLoadDuration : ℚ := 5

/-- The `serverEnergyConsumption` local of `calculatePageLoadImpact`. -/
@[simp] def pageLoadServerJ (p : PageLoadParams) : ℚ :=
  calculateServerEnergyConsumption p.dataVolume none

/-- The `networkEnergyConsumption` local of `calculatePageLoadImpact`. -/
@[simp] def pageLoadNetworkJ (p : PageLoadParams) : ℚ :=
  calculateNetworkEnergyConsumption p.dataVolume none

/-- The `dataTransferEnergyConsumption` local of `calculatePageLoadImpact`. -/
@[simp] def pageLoadDataTransferJ (p : PageLoadParams) : ℚ :=
  formulateDataTransferEnergyConsumptionSum p.deviceType p.dataVolume 1
    pageLoadDuration

/-- The `energyOfUse` local of `calculatePageLoadImpact`:
`getDeviceEnergyConsumption(deviceType)` (no content type) times the fixed
duration. -/
@[simp] def pageLoadEnergyOfUseJ (p : PageLoadParams) : ℚ :=
  getDeviceEnergyConsumption p.deviceType none * pageLoadDuration

/-- The `eTotalJoule` local of `calculatePageLoadImpact`. -/
@[simp] def pageLoadTotalJ (p : PageLoadParams) : ℚ :=
  pageLoadServerJ p + pageLoadNetworkJ p + pageLoadDataTransferJ p +
    pageLoadEnergyOfUseJ p

/-- `calculatePageLoadImpact(params)`. -/
@[simp] def calculatePageLoadImpact (params : PageLoadParams) : Calculation :=
  multiplyCalculation
    { total := getEnergyAndCarbon (pageLoadTotalJ params)
      comparisonValues :=
        calculateComparisonValues
          (getEnergyAndCarbon (pageLoadTotalJ params)).carbonGrams
          (pageLoadTotalJ params)
      serverEnergyConsumption := getEnergyAndCarbon (pageLoadServerJ params)
      networkEnergyConsumption := getEnergyAndCarbon (pageLoadNetworkJ params)
      dataTransferEnergyConsumption :=
        getEnergyAndCarbon (pageLoadDataTransferJ params)
      energyOfUse := getEnergyAndCarbon (pageLoadEnergyOfUseJ params) }
    params.userAmount

/-- The `dataVolume` local of `calculatePageUseImpact`: zero for text content,
`getDataVolume` otherwise. -/
@[simp] def pageUseDataVolume (p : PageUseParams) : ℚ :=
  if p.contentType ≠ ContentType.Text then
    getDataVolume p.contentType p.durationInSeconds p.optimizeVideo p.site
  else 0

/-- The `serverEnergyConsumption` local of `calculatePageUseImpact`: zero for
text content ("Use of text content assumes 0 loaded bytes"). -/
@[simp] def pageUseServerJ (p : PageUseParams) : ℚ :=
  if p.contentType ≠ ContentType.Text then
    calculateServerEnergyConsumption (pageUseDataVolume p) none
  else 0

/-- The `networkEnergyConsumption` local of `calculatePageUseImpact`. -/
@[simp] def pageUseNetworkJ (p : PageUseParams) : ℚ :=
  calculateNetworkEnergyConsumption (pageUseDataVolume p) none

/-- The `dataTransferEnergyConsumption` local of `calculatePageUseImpact`. -/
@[simp] def pageUseDataTransferJ (p : PageUseParams) : ℚ :=
  formulateDataTransferEnergyConsumptionSum p.deviceType (pageUseDataVolume p)
    1 p.durationInSeconds

/-- The `energyOfUse` local of `calculatePageUseImpact`:
`getDeviceEnergyConsumption(deviceType, contentType)` times the caller-supplied
duration. -/
@[simp] def pageUseEnergyOfUseJ (p : PageUseParams) : ℚ :=
  getDeviceEnergyConsumption p.deviceType (some p.contentType) *
    p.durationInSeconds

/-- The `eTotalJoule` local of `calculatePageUseImpact`. -/
@[simp] def pageUseTotalJ (p : PageUseParams) : ℚ :=
  pageUseServerJ p + pageUseNetworkJ p + pageUseDataTransferJ p +
    pageUseEnergyOfUseJ p

/-- `calculatePageUseImpact(params)`. -/
@[simp] def calculatePageUseImpact (params : PageUseParams) : Calculation :=
  multiplyCalculation
    { total := getEnergyAndCarbon (pageUseTotalJ params)
      comparisonValues :=
        calculateComparisonValues
          (getEnergyAndCarbon (pageUseTotalJ params)).carbonGrams
          (pageUseTotalJ params)
      serverEnergyConsumption := getEnergyAndCarbon (pageUseServerJ params)
      networkEnergyConsumption := getEnergyAndCarbon (pageUseNetworkJ params)
      dataTransferEnergyConsumption :=
        getEnergyAndCarbon (pageUseDataTransferJ params)
      energyOfUse := getEnergyAndCarbon (pageUseEnergyOfUseJ params) }
    params.userAmount

end CalculateImpact

namespace CalculateImpact

/-! ## Spec-side reference definition for the data-transfer formula -/

/-- The traffic-share table as the spec words it, for the mobile class:
3G 0 %, 4G 40 %, 5G 30 %, Wi-Fi 30 %. -/
@[simp] def specMobileShare : ConnectivityMethod → ℚ
  | ConnectivityMethod.ThreeG => 0
  | ConnectivityMethod.FourG => 4 / 10
  | ConnectivityMethod.FiveG => 3 / 10
  | ConnectivityMethod.WIFI => 3 / 10

/-- The traffic-share table as the spec words it, for the computer class:
3G 0 %, 4G 30 %, 5G 10 %, Wi-Fi 60 %. -/
@[simp] def specComputerShare : ConnectivityMethod → ℚ
  | ConnectivityMethod.ThreeG => 0
  | ConnectivityMethod.FourG => 3 / 10
  | ConnectivityMethod.FiveG => 1 / 10
  | ConnectivityMethod.WIFI => 6 / 10

/-- The data-transfer energy as the spec words it: the device is mobile exactly
when it is a Phone, otherwise computer; the energy is the sum over the four
connectivity methods of the per-method energy (per-byte coefficient times data
volume times page loads for 3G/4G/5G, flat per-second rate times duration for
Wi-Fi) weighted by that class's share. Reference definition to compare with
`formulateDataTransferEnergyConsumptionSum`. -/
@[simp] def dataTransferEnergySpec (deviceType : DeviceType)
    (dataVolume pageLoads durationInSeconds : ℚ) : ℚ :=
  let share := if deviceType = DeviceType.Phone then specMobileShare
               else specComputerShare
  share ConnectivityMethod.ThreeG * (E_ACC_NET_3G * dataVolume * pageLoads) +
    share ConnectivityMethod.FourG * (E_ACC_NET_4G * dataVolume * pageLoads) +
    share ConnectivityMethod.FiveG * (E_ACC_NET_5G * dataVolume * pageLoads) +
    share ConnectivityMethod.WIFI * (WIFI_ENERGY_PER_S * durationInSeconds)

/-! ## Claim theorems -/

/-- C1: for every input to `calculatePageLoadImpact` and
`calculatePageUseImpact`, the returned `Calculation` satisfies
`total.totalEnergyConsumptionWh * 3600 = serverJ + networkJ + dataTransferJ +
deviceJ`, where each joules value is the pre-conversion component energy of
that call scaled by the same `userAmount` factor as the total. Exact over ℚ. -/
theorem impact_totalWh_times_3600_eq_component_joules :
    (∀ p : PageLoadParams,
      (calculatePageLoadImpact p).total.totalEnergyConsumptionWh * 3600 =
        p.userAmount * pageLoadServerJ p + p.userAmount * pageLoadNetworkJ p +
          p.userAmount * pageLoadDataTransferJ p +
          p.userAmount * pageLoadEnergyOfUseJ p) ∧
    (∀ p : PageUseParams,
      (calculatePageUseImpact p).total.totalEnergyConsumptionWh * 3600 =
        p.userAmount * pageUseServerJ p + p.userAmount * pageUseNetworkJ p +
          p.userAmount * pageUseDataTransferJ p +
          p.userAmount * pageUseEnergyOfUseJ p) := by
  constructor <;> intro p
  · show p.userAmount *
        ((pageLoadServerJ p + pageLoadNetworkJ p + pageLoadDataTransferJ p +
            pageLoadEnergyOfUseJ p) / 3600) * 3600 = _
    rw [mul_assoc, div_mul_cancel₀ _ (by norm_num : (3600 : ℚ) ≠ 0)]
    ring
  · show p.userAmount *
        ((pageUseServerJ p + pageUseNetworkJ p + pageUseDataTransferJ p +
            pageUseEnergyOfUseJ p) / 3600) * 3600 = _
    rw [mul_assoc, div_mul_cancel₀ _ (by norm_num : (3600 : ℚ) ≠ 0)]
    ring

/-- C2 counterexample: at device Phone, content Text, duration 10 s,
userAmount 1 (site generic, no video optimization), the data-transfer energy
of `calculatePageUseImpact` is NOT zero — it is 30 J (Wi-Fi share 0.3 × 10 W
× 10 s), refuting the claim that both network and data-transfer energy are
zero. -/
theorem pageUse_phone_text_dataTransfer_not_zero :
    ¬ ((calculatePageUseImpact
          ⟨DeviceType.Phone, ContentType.Text, 10, false, 1,
            Site.Other⟩).dataTransferEnergyConsumption.totalEnergyConsumptionWh
        * 3600 = 0) := by
  norm_num +decide

/-- C2 (amended): at device Phone, content Text, duration 10 s, userAmount 1:
the device energy is 1 × 10 = 10 J with no 1.15 multiplier, the data volume is
0, the server energy is 0, the network energy is 0, and the data-transfer
energy is 30 J (the Wi-Fi share 0.3 of the flat 10 J/s rate over 10 s), not
0. -/
theorem pageUse_phone_text_example :
    (calculatePageUseImpact
        ⟨DeviceType.Phone, ContentType.Text, 10, false, 1,
          Site.Other⟩).energyOfUse.totalEnergyConsumptionWh * 3600 = 1 * 10 ∧
    pageUseDataVolume
        ⟨DeviceType.Phone, ContentType.Text, 10, false, 1, Site.Other⟩ = 0 ∧
    (calculatePageUseImpact
        ⟨DeviceType.Phone, ContentType.Text, 10, false, 1,
          Site.Other⟩).serverEnergyConsumption.totalEnergyConsumptionWh
      * 3600 = 0 ∧
    (calculatePageUseImpact
        ⟨DeviceType.Phone, ContentType.Text, 10, false, 1,
          Site.Other⟩).networkEnergyConsumption.totalEnergyConsumptionWh
      * 3600 = 0 ∧
    (calculatePageUseImpact
        ⟨DeviceType.Phone, ContentType.Text, 10, false, 1,
          Site.Other⟩).dataTransferEnergyConsumption.totalEnergyConsumptionWh
      * 3600 = 30 := by
  refine ⟨by norm_num +decide, by norm_num +decide, by norm_num +decide, by norm_num +decide, by norm_num +decide⟩

/-- C3: for every device type, data volume, page loads and duration, the
data-transfer energy of the source
(`formulateDataTransferEnergyConsumptionSum`) equals the spec's wording
(`dataTransferEnergySpec`): mobile exactly when the device is a Phone,
otherwise computer, summing the per-method energies weighted by the fixed
share tables mobile = {3G: 0, 4G: 0.4, 5G: 0.3, WIFI: 0.3} and
computer = {3G: 0, 4G: 0.3, 5G: 0.1, WIFI: 0.6}. -/
theorem formulateDataTransfer_eq_spec (deviceType : DeviceType)
    (dataVolume pageLoads durationInSeconds : ℚ) :
    formulateDataTransferEnergyConsumptionSum deviceType dataVolume pageLoads
        durationInSeconds =
      dataTransferEnergySpec deviceType dataVolume pageLoads
        durationInSeconds := by
  cases deviceType <;>
    simp [formulateDataTransferEnergyConsumptionSum, dataTransferEnergySpec,
      allConnectivityMethods, getDataTransferEnergyConsumption, DATA_SHARE_MAP,
      specMobileShare, specComputerShare] <;>
    ring

/-- C4: at device PC, content Video, duration 60 s, optimizeVideo false,
generic site, userAmount 1: the data volume is 60 × the default video bitrate,
the device energy is 115 × 1.15 × 60 J, the server energy is
306 + 6.9e-6 × dataVolume J, the total joules is the sum of the four
components, and the carbon grams is 0.11 × (total joules / 3600). -/
theorem pageUse_pc_video_example :
    pageUseDataVolume
        ⟨DeviceType.PC, ContentType.Video, 60, false, 1, Site.Other⟩ =
      60 * DATA_VOLUME_VIDEO_PER_S_DEFAULT ∧
    (calculatePageUseImpact
        ⟨DeviceType.PC, ContentType.Video, 60, false, 1,
          Site.Other⟩).energyOfUse.totalEnergyConsumptionWh * 3600 =
      115 * (115 / 100) * 60 ∧
    (calculatePageUseImpact
        ⟨DeviceType.PC, ContentType.Video, 60, false, 1,
          Site.Other⟩).serverEnergyConsumption.totalEnergyConsumptionWh
        * 3600 =
      306 + 69 / 10000000 *
        pageUseDataVolume
          ⟨DeviceType.PC, ContentType.Video, 60, false, 1, Site.Other⟩ ∧
    (calculatePageUseImpact
        ⟨DeviceType.PC, ContentType.Video, 60, false, 1,
          Site.Other⟩).total.totalEnergyConsumptionWh * 3600 =
      (calculatePageUseImpact
          ⟨DeviceType.PC, ContentType.Video, 60, false, 1,
            Site.Other⟩).serverEnergyConsumption.totalEnergyConsumptionWh
          * 3600 +
        (calculatePageUseImpact
            ⟨DeviceType.PC, ContentType.Video, 60, false, 1,
              Site.Other⟩).networkEnergyConsumption.totalEnergyConsumptionWh
          * 3600 +
        (calculatePageUseImpact
            ⟨DeviceType.PC, ContentType.Video, 60, false, 1,
              Site.Other⟩).dataTransferEnergyConsumption.totalEnergyConsumptionWh
          * 3600 +
        (calculatePageUseImpact
            ⟨DeviceType.PC, ContentType.Video, 60, false, 1,
              Site.Other⟩).energyOfUse.totalEnergyConsumptionWh * 3600 ∧
    (calculatePageUseImpact
        ⟨DeviceType.PC, ContentType.Video, 60, false, 1,
          Site.Other⟩).total.carbonGrams =
      11 / 100 *
        ((calculatePageUseImpact
            ⟨DeviceType.PC, ContentType.Video, 60, false, 1,
              Site.Other⟩).total.totalEnergyConsumptionWh * 3600 / 3600) := by
  refine ⟨by norm_num +decide, by norm_num +decide, by norm_num +decide, by norm_num +decide, by norm_num +decide⟩

/-- C5: for every duration and site, the video data volume is duration times a
bitrate chosen as: the fixed optimized constant when `optimizeVideo` is true,
regardless of site; otherwise the Yle rate for Yle/Areena, the Sanoma rate for
HS, and the generic default for any other site. -/
theorem getDataVolume_video_bitrate_choice (d : ℚ) (s : Site) :
    getDataVolume ContentType.Video d true s =
        d * DATA_VOLUME_VIDEO_OPTIMIZED_PER_S ∧
    getDataVolume ContentType.Video d false Site.Yle =
        d * DATA_VOLUME_VIDEO_PER_S_YLE ∧
    getDataVolume ContentType.Video d false Site.Areena =
        d * DATA_VOLUME_VIDEO_PER_S_YLE ∧
    getDataVolume ContentType.Video d false Site.HS =
        d * DATA_VOLUME_VIDEO_PER_S_SANOMA ∧
    getDataVolume ContentType.Video d false Site.Other =
        d * DATA_VOLUME_VIDEO_PER_S_DEFAULT := by
  cases s <;> simp [getDataVolume]

end CalculateImpact

namespace CalculateImpact

set_option maxHeartbeats 4000000 in
/-- C6: for two `calculatePageUseImpact` inputs with content type Video or
Audio that agree on everything except the duration, with non-negative
durations `d1 ≤ d2` and non-negative `userAmount`, the total watt-hours at
`d1` is at most the total at `d2`. -/
theorem pageUse_totalWh_monotone_in_duration (deviceType : DeviceType)
    (contentType : ContentType) (optimizeVideo : Bool) (userAmount : ℚ)
    (site : Site) (d1 d2 : ℚ)
    (hct : contentType = ContentType.Video ∨ contentType = ContentType.Audio)
    (h0 : 0 ≤ d1) (h12 : d1 ≤ d2) (hu : 0 ≤ userAmount) :
    (calculatePageUseImpact
        ⟨deviceType, contentType, d1, optimizeVideo, userAmount,
          site⟩).total.totalEnergyConsumptionWh ≤
      (calculatePageUseImpact
          ⟨deviceType, contentType, d2, optimizeVideo, userAmount,
            site⟩).total.totalEnergyConsumptionWh := by
  rcases hct with rfl | rfl
  · cases deviceType <;> cases site <;> cases optimizeVideo <;>
      simp +decide <;>
      nlinarith [mul_nonneg hu (sub_nonneg.mpr h12), mul_nonneg hu h0]
  · cases deviceType <;>
      simp +decide <;>
      nlinarith [mul_nonneg hu (sub_nonneg.mpr h12), mul_nonneg hu h0]

/-- C6 witness: the monotonicity theorem applied at device Phone, content
Video, durations 1 ≤ 2, userAmount 1, generic site. -/
theorem pageUse_totalWh_monotone_in_duration_witness :
    (calculatePageUseImpact
        ⟨DeviceType.Phone, ContentType.Video, 1, false, 1,
          Site.Other⟩).total.totalEnergyConsumptionWh ≤
      (calculatePageUseImpact
          ⟨DeviceType.Phone, ContentType.Video, 2, false, 1,
            Site.Other⟩).total.totalEnergyConsumptionWh :=
  pageUse_totalWh_monotone_in_duration DeviceType.Phone ContentType.Video
    false 1 Site.Other 1 2 (Or.inl rfl) (by norm_num) (by norm_num)
    (by norm_num)

end CalculateImpact

namespace CalculateImpact

/-- C7 counterexample: at device Phone, content Video, duration 60 s, site
generic and userAmount −1 (the claim quantifies over every input and does not
restrict the user amount), the optimized total watt-hours is NOT less than or
equal to the non-optimized total: scaling by a negative audience flips the
inequality. -/
theorem pageUse_optimizeVideo_le_fails_for_negative_userAmount :
    ¬ ((calculatePageUseImpact
          ⟨DeviceType.Phone, ContentType.Video, 60, true, -1,
            Site.Other⟩).total.totalEnergyConsumptionWh ≤
        (calculatePageUseImpact
            ⟨DeviceType.Phone, ContentType.Video, 60, false, -1,
              Site.Other⟩).total.totalEnergyConsumptionWh) := by
  norm_num +decide

set_option maxHeartbeats 4000000 in
/-- C7 (amended): for content Video with non-negative duration and
non-negative userAmount, `optimizeVideo = true` yields a data volume, and
every numeric leaf of the resulting `Calculation`, less than or equal to the
same input with `optimizeVideo = false`, for every device type and site. -/
theorem pageUse_optimizeVideo_le_of_nonneg (deviceType : DeviceType)
    (site : Site) (d u : ℚ) (hd : 0 ≤ d) (hu : 0 ≤ u) :
    pageUseDataVolume ⟨deviceType, ContentType.Video, d, true, u, site⟩ ≤
      pageUseDataVolume ⟨deviceType, ContentType.Video, d, false, u, site⟩ ∧
    ((calculatePageUseImpact
        ⟨deviceType, ContentType.Video, d, true, u,
          site⟩).total.totalEnergyConsumptionWh ≤
      (calculatePageUseImpact
          ⟨deviceType, ContentType.Video, d, false, u,
            site⟩).total.totalEnergyConsumptionWh ∧
    (calculatePageUseImpact
        ⟨deviceType, ContentType.Video, d, true, u,
          site⟩).total.carbonGrams ≤
      (calculatePageUseImpact
          ⟨deviceType, ContentType.Video, d, false, u,
            site⟩).total.carbonGrams) ∧
    ((calculatePageUseImpact
        ⟨deviceType, ContentType.Video, d, true, u,
          site⟩).serverEnergyConsumption.totalEnergyConsumptionWh ≤
      (calculatePageUseImpact
          ⟨deviceType, ContentType.Video, d, false, u,
            site⟩).serverEnergyConsumption.totalEnergyConsumptionWh ∧
    (calculatePageUseImpact
        ⟨deviceType, ContentType.Video, d, true, u,
          site⟩).serverEnergyConsumption.carbonGrams ≤
      (calculatePageUseImpact
          ⟨deviceType, ContentType.Video, d, false, u,
            site⟩).serverEnergyConsumption.carbonGrams) ∧
    ((calculatePageUseImpact
        ⟨deviceType, ContentType.Video, d, true, u,
          site⟩).networkEnergyConsumption.totalEnergyConsumptionWh ≤
      (calculatePageUseImpact
          ⟨deviceType, ContentType.Video, d, false, u,
            site⟩).networkEnergyConsumption.totalEnergyConsumptionWh ∧
    (calculatePageUseImpact
        ⟨deviceType, ContentType.Video, d, true, u,
          site⟩).networkEnergyConsumption.carbonGrams ≤
      (calculatePageUseImpact
          ⟨deviceType, ContentType.Video, d, false, u,
            site⟩).networkEnergyConsumption.carbonGrams) ∧
    ((calculatePageUseImpact
        ⟨deviceType, ContentType.Video, d, true, u,
          site⟩).dataTransferEnergyConsumption.totalEnergyConsumptionWh ≤
      (calculatePageUseImpact
          ⟨deviceType, ContentType.Video, d, false, u,
            site⟩).dataTransferEnergyConsumption.totalEnergyConsumptionWh ∧
    (calculatePageUseImpact
        ⟨deviceType, ContentType.Video, d, true, u,
          site⟩).dataTransferEnergyConsumption.carbonGrams ≤
      (calculatePageUseImpact
          ⟨deviceType, ContentType.Video, d, false, u,
            site⟩).dataTransferEnergyConsumption.carbonGrams) ∧
    ((calculatePageUseImpact
        ⟨deviceType, ContentType.Video, d, true, u,
          site⟩).energyOfUse.totalEnergyConsumptionWh ≤
      (calculatePageUseImpact
          ⟨deviceType, ContentType.Video, d, false, u,
            site⟩).energyOfUse.totalEnergyConsumptionWh ∧
    (calculatePageUseImpact
        ⟨deviceType, ContentType.Video, d, true, u,
          site⟩).energyOfUse.carbonGrams ≤
      (calculatePageUseImpact
          ⟨deviceType, ContentType.Video, d, false, u,
            site⟩).energyOfUse.carbonGrams) ∧
    ((calculatePageUseImpact
        ⟨deviceType, ContentType.Video, d, true, u,
          site⟩).comparisonValues.drivingKMPetrolCar ≤
      (calculatePageUseImpact
          ⟨deviceType, ContentType.Video, d, false, u,
            site⟩).comparisonValues.drivingKMPetrolCar ∧
    (calculatePageUseImpact
        ⟨deviceType, ContentType.Video, d, true, u,
          site⟩).comparisonValues.lightBulbDurationSeconds ≤
      (calculatePageUseImpact
          ⟨deviceType, ContentType.Video, d, false, u,
            site⟩).comparisonValues.lightBulbDurationSeconds) := by
  cases deviceType <;> cases site <;> simp +decide <;>
    (repeat' apply And.intro) <;>
    nlinarith [mul_nonneg hu hd]

/-- C7 witness: the amended theorem applied at device Phone, generic site,
duration 60 s, userAmount 1. -/
theorem pageUse_optimizeVideo_le_of_nonneg_witness :
    pageUseDataVolume
        ⟨DeviceType.Phone, ContentType.Video, 60, true, 1, Site.Other⟩ ≤
      pageUseDataVolume
        ⟨DeviceType.Phone, ContentType.Video, 60, false, 1, Site.Other⟩ :=
  (pageUse_optimizeVideo_le_of_nonneg DeviceType.Phone Site.Other 60 1
      (by norm_num) (by norm_num)).1

end CalculateImpact

namespace CalculateImpact

/-- C8: `calculatePageLoadImpact` uses the fixed 5-second duration and a
single page load (`pageLoads = 1`), and its device component (pre-scaling) is
the base device power times 5 with no 1.15 video multiplier, since no content
type is passed to the device-energy formula; the whole breakdown is scaled by
`userAmount`. Each component of the result is the `userAmount`-scaled
energy-and-carbon conversion of the corresponding formula at duration 5 and
pageLoads 1. -/
theorem pageLoad_fixed_duration_and_base_device_power (p : PageLoadParams) :
    (calculatePageLoadImpact p).energyOfUse =
        getEnergyAndCarbon (p.userAmount * (DEVICE_POWER p.deviceType * 5)) ∧
    (calculatePageLoadImpact p).serverEnergyConsumption =
        getEnergyAndCarbon
          (p.userAmount *
            calculateServerEnergyConsumption p.dataVolume (some 1)) ∧
    (calculatePageLoadImpact p).networkEnergyConsumption =
        getEnergyAndCarbon
          (p.userAmount *
            calculateNetworkEnergyConsumption p.dataVolume (some 1)) ∧
    (calculatePageLoadImpact p).dataTransferEnergyConsumption =
        getEnergyAndCarbon
          (p.userAmount *
            formulateDataTransferEnergyConsumptionSum p.deviceType
              p.dataVolume 1 5) := by
  refine ⟨?_, ?_, ?_, ?_⟩ <;> simp +decide <;> constructor <;> ring

/-- C9: for every `PageLoadParams` and every k > 0, `calculatePageLoadImpact`
with userAmount k equals the external scaler applied with multiplier k to
`calculatePageLoadImpact` with userAmount 1. -/
theorem pageLoad_userAmount_scaling (p : PageLoadParams) (k : ℚ)
    (hk : 0 < k) :
    calculatePageLoadImpact { p with userAmount := k } =
      multiplyCalculation (calculatePageLoadImpact { p with userAmount := 1 })
        k := by
  simp +decide

/-- C9 witness: the scaling law applied at device PC, data volume 1000 bytes,
k = 2. -/
theorem pageLoad_userAmount_scaling_witness :
    calculatePageLoadImpact ⟨DeviceType.PC, 1000, 2, Site.Other⟩ =
      multiplyCalculation
        (calculatePageLoadImpact ⟨DeviceType.PC, 1000, 1, Site.Other⟩) 2 :=
  pageLoad_userAmount_scaling ⟨DeviceType.PC, 1000, 7, Site.Other⟩ 2
    (by norm_num)

/-- C10: two `PageLoadParams` that agree on device type, data volume and user
amount produce identical results, whatever their `site` fields are: the site
is part of the input type but has no influence on the output. -/
theorem pageLoad_site_no_influence (p1 p2 : PageLoadParams)
    (hdev : p1.deviceType = p2.deviceType)
    (hvol : p1.dataVolume = p2.dataVolume)
    (hu : p1.userAmount = p2.userAmount) :
    calculatePageLoadImpact p1 = calculatePageLoadImpact p2 := by
  obtain ⟨dt1, v1, u1, s1⟩ := p1
  obtain ⟨dt2, v2, u2, s2⟩ := p2
  dsimp only at hdev hvol hu
  subst hdev; subst hvol; subst hu
  rfl

/-- C10 witness: identical results for inputs that differ only in site
(Yle versus HS). -/
theorem pageLoad_site_no_influence_witness :
    calculatePageLoadImpact ⟨DeviceType.Phone, 100, 1, Site.Yle⟩ =
      calculatePageLoadImpact ⟨DeviceType.Phone, 100, 1, Site.HS⟩ :=
  pageLoad_site_no_influence ⟨DeviceType.Phone, 100, 1, Site.Yle⟩
    ⟨DeviceType.Phone, 100, 1, Site.HS⟩ rfl rfl rfl

end CalculateImpact
